import Mathlib

/-
Verification development for the sysml-v2-sql repository.

The definitions below are a shallow embedding of the Rust sources:
 - src/json_schema_to_sql/sql.rs   (SqlRepresentation, fuse, to_create_table)
 - src/util.rs                     (escape_sql, escape_sql_str_lit, escape_sql_ident)
 - src/util/stream_json.rs         (yield_next_obj, iter_json_array)
 - src/import.rs                   (Element, import_from_iter and helpers)
 - src/fetch.rs                    (check_for_conflicting_elements, fetch pipeline)
 - src/config.rs                   (POLYMORPHIC_PROPS, ELEMENT_PK_COL)

Machine integers do not occur on any verified path; JSON numbers are carried
as Int (with a flag distinguishing the f64 case), since the import never
computes with them, it only stores them.
-/

namespace SysmlV2Sql

/-- serde_json::Value — JSON values as consumed by the importer.
`num isFloat v`: serde_json distinguishes `is_f64` numbers from integral ones;
the numeric payload is carried opaquely as an `Int` (the importer never
computes with numbers, it only stores them). -/
inductive Json where
  | null : Json
  | boolean (b : Bool) : Json
  | num (isFloat : Bool) (v : Int) : Json
  | str (s : String) : Json
  | arr (items : List Json) : Json
  | obj (fields : List (String × Json)) : Json

mutual

/-- Structural equality of JSON values (serde_json's `PartialEq`). -/
def Json.beq : Json → Json → Bool
  | .null, .null => true
  | .boolean a, .boolean b => a == b
  | .num f v, .num g w => f == g && v == w
  | .str a, .str b => a == b
  | .arr xs, .arr ys => Json.beqList xs ys
  | .obj fs, .obj gs => Json.beqFields fs gs
  | _, _ => false

/-- Pointwise `Json.beq` on JSON arrays. -/
def Json.beqList : List Json → List Json → Bool
  | [], [] => true
  | x :: xs, y :: ys => Json.beq x y && Json.beqList xs ys
  | _, _ => false

/-- Pointwise `Json.beq` on JSON object entry lists. -/
def Json.beqFields : List (String × Json) → List (String × Json) → Bool
  | [], [] => true
  | (n, x) :: xs, (m, y) :: ys => n == m && Json.beq x y && Json.beqFields xs ys
  | _, _ => false

end

instance : BEq Json := ⟨Json.beq⟩

/-- config.rs: `ELEMENT_PK_COL = "@id"`. -/
def elementPkCol : String := "@id"

/-- config.rs: `POLYMORPHIC_PROPS = ["value"]`. -/
def polymorphicProps : List String := ["value"]

/-- import.rs `Element`: the `@id` attribute is pulled out by serde into `id`;
all remaining attributes land in `rest` (a serde_json Map, i.e. an ordered
key-unique association list). -/
structure Element where
  id : String
  rest : List (String × Json)

/-- Rust derived `PartialEq` on `Element` (field-wise). -/
def Element.beq (a b : Element) : Bool :=
  a.id == b.id && Json.beqFields a.rest b.rest

instance : BEq Element := ⟨Element.beq⟩

/-- `Map::get` on an Element's `rest` map. -/
def lookupAttr (rest : List (String × Json)) (name : String) : Option Json :=
  (rest.find? (fun p => p.1 == name)).map (fun p => p.2)

/-
Embedding of src/json_schema_to_sql/sql.rs
-/

/-- sql.rs `SqlRepresentation`. -/
inductive SqlRepresentation where
  | column (unique : Bool) (null : Bool) (idForeignKeyConstraint : Bool) (ty : String)
  | relationsTable
  | extendedPropertiesTable
deriving DecidableEq, Repr

/-- Rust `str::starts_with` (computed on the character list so that concrete
instances reduce definitionally). -/
def strStartsWith (s pre : String) : Bool := pre.toList.isPrefixOf s.toList

/-- Rust `{:?}` rendering of a `String` (quotes around the text; escaping of
exotic characters inside identifiers is not needed for column names). -/
def debugQuote (s : String) : String := "\"" ++ s ++ "\""

/-- Rust `{:?}` rendering of a `bool`. -/
def boolDebug (b : Bool) : String := if b then "true" else "false"

/-- Rust derived `Debug` rendering of `SqlRepresentation` (`{:?}`, one line). -/
def SqlRepresentation.reprDebug : SqlRepresentation → String
  | .column u n f t =>
      "Column \x7b unique: " ++ boolDebug u ++ ", null: " ++ boolDebug n ++
      ", id_foreign_key_constraint: " ++ boolDebug f ++ ", ty: " ++ debugQuote t ++ " \x7d"
  | .relationsTable => "RelationsTable"
  | .extendedPropertiesTable => "ExtendedPropertiesTable"

/-- sql.rs `SqlRepresentation::fuse`.  Returns the new value of `self` plus the
"something was done" flag; errors mirror the `ensure!`/`bail!` messages. -/
def SqlRepresentation.fuse (self other : SqlRepresentation) (columnName : String) :
    Except String (SqlRepresentation × Bool) :=
  if self = other then .ok (self, false)
  else
    match self, other with
    | .column sUniq sNull sFkc sTy, .column oUniq oNull oFkc oTy =>
      if ¬ (sFkc = oFkc ∨ polymorphicProps.contains columnName) then
        .error ("Fusing two SqlRepresentations with differing id_foreign_key_constraint values for column "
          ++ debugQuote columnName ++ ": "
          ++ (SqlRepresentation.column sUniq sNull sFkc sTy).reprDebug ++ ", "
          ++ (SqlRepresentation.column oUniq oNull oFkc oTy).reprDebug
          ++ ", prop = " ++ debugQuote columnName)
      else
        match
          (if ¬ (strStartsWith sTy "TEXT" ∧ strStartsWith oTy "TEXT") then
            (if sTy = oTy then .ok sTy
             else .error ("Fusing two SqlRepresentations with differing type: " ++ sTy ++ " vs. " ++ oTy))
          else .ok "TEXT" : Except String String)
        with
        | .error e => .error e
        | .ok newTy =>
          if ¬ (sUniq = oUniq) then .error "Uniqueness must not differ"
          else .ok (.column sUniq (sNull || oNull) sFkc newTy, true)
    | .column _ _ true _, .relationsTable => .ok (.relationsTable, true)
    | .relationsTable, .column _ _ true oTy =>
      if oTy = "TEXT" then .ok (.relationsTable, true)
      else .error "If foreign_key_constraint is true, the type must be TEXT"
    | s, o =>
      .error ("Fusing column " ++ debugQuote columnName ++ " representation " ++ s.reprDebug
        ++ " with " ++ o.reprDebug ++ " is impossible")

/-- Boolean substring test: does `msg` contain `sub` as a contiguous substring? -/
def containsSub (msg sub : String) : Bool :=
  msg.toList.tails.any (fun t => sub.toList.isPrefixOf t)

/-
util.rs escape helpers and the relations-table CHECK of sql.rs to_create_table
-/

/-- util.rs `escape_sql`: double every occurrence of the delimiter, then wrap. -/
def escapeSql (delim : Char) (s : String) : String :=
  let escaped := (s.toList.map (fun c => if c = delim then [delim, delim] else [c])).flatten
  String.mk ([delim] ++ escaped ++ [delim])

/-- util.rs `escape_sql_str_lit` (single quotes). -/
def escapeSqlStrLit (s : String) : String := escapeSql (Char.ofNat 39) s

/-- util.rs `escape_sql_ident` (double quotes). -/
def escapeSqlIdent (s : String) : String := escapeSql (Char.ofNat 34) s

/-- sql.rs `to_create_table`, lines building `allowed_relation_names` (before
escaping): property names whose fused representation is `RelationsTable`, in
map order, then the polymorphic names, then the hard-coded `"analysisAction"`
hot-fix.  `columns` stands for the `BTreeMap` of fused columns (its sorted
entry list). -/
def allowedRelationNames (columns : List (String × SqlRepresentation)) : List String :=
  (columns.filterMap (fun nc =>
    match nc.2 with
    | .relationsTable => some nc.1
    | _ => none))
  ++ polymorphicProps ++ ["analysisAction"]

/-- sql.rs `to_create_table`: the comma-joined escaped name list that is pasted
into `CHECK("name" IN (...))` of the relations table DDL. -/
def allowedRelationNamesSql (columns : List (String × SqlRepresentation)) : String :=
  String.intercalate ",\n\t\t" ((allowedRelationNames columns).map escapeSqlStrLit)

/-- C5: fusing `Column(text, nullable=false)` with `Column(text, nullable=true)`
for any property name P yields `Column(text, nullable=true)` (nullability is
OR-ed), and fusing a foreign-key `Column` with `RelationsTable` yields
`RelationsTable`; both pairs fuse the same way in either operand order. -/
theorem fuse_nullable_or_and_fk_upgrade (P : String) :
    SqlRepresentation.fuse (.column false false false "TEXT") (.column false true false "TEXT") P
      = .ok (.column false true false "TEXT", true)
  ∧ SqlRepresentation.fuse (.column false true false "TEXT") (.column false false false "TEXT") P
      = .ok (.column false true false "TEXT", true)
  ∧ SqlRepresentation.fuse (.column false false true "TEXT") .relationsTable P
      = .ok (.relationsTable, true)
  ∧ SqlRepresentation.fuse .relationsTable (.column false false true "TEXT") P
      = .ok (.relationsTable, true) :=
  ⟨rfl, rfl, rfl, rfl⟩

/-- C6 counterexample: fusing the INTEGER column candidate with the TEXT column
candidate for the concrete property "ownedProp" produces a fusion error whose
message does not mention the property name at all, refuting the claim that the
error names the property P. -/
theorem fuse_integer_text_error_omits_property :
    SqlRepresentation.fuse (.column false true false "INTEGER") (.column false false false "TEXT")
        "ownedProp"
      = .error "Fusing two SqlRepresentations with differing type: INTEGER vs. TEXT"
  ∧ containsSub "Fusing two SqlRepresentations with differing type: INTEGER vs. TEXT" "ownedProp"
      = false :=
  ⟨rfl, rfl⟩

/-- C6 (amended): for every property name P, fusing `Column(INTEGER)` with
`Column(TEXT)` fails, and the fusion error names the two conflicting scalar
types (INTEGER and TEXT) — but not the property name P. -/
theorem fuse_integer_text_error_names_types (P : String) :
    SqlRepresentation.fuse (.column false true false "INTEGER") (.column false false false "TEXT") P
      = .error "Fusing two SqlRepresentations with differing type: INTEGER vs. TEXT"
  ∧ containsSub "Fusing two SqlRepresentations with differing type: INTEGER vs. TEXT" "INTEGER"
      = true
  ∧ containsSub "Fusing two SqlRepresentations with differing type: INTEGER vs. TEXT" "TEXT"
      = true :=
  ⟨rfl, rfl, rfl⟩

/-- C7 counterexample: for the empty fused column mapping the claim demands the
CHECK name set to be exactly the polymorphic names (only "value"), but the
rendered list also carries the hard-coded "analysisAction" hot-fix. -/
theorem allowedRelationNames_analysisAction_hotfix :
    allowedRelationNames [] = ["value", "analysisAction"]
  ∧ polymorphicProps.contains "analysisAction" = false
  ∧ allowedRelationNamesSql [] = "'value',\n\t\t'analysisAction'" :=
  ⟨rfl, rfl, rfl⟩

/-- C7 (amended): a name is allowed by the relations-table CHECK constraint
exactly when its fused representation is `RelationsTable`, or it is a
polymorphic property name, or it is the hard-coded "analysisAction" hot-fix. -/
theorem allowedRelationNames_spec (columns : List (String × SqlRepresentation)) (n : String) :
    n ∈ allowedRelationNames columns ↔
      (n, SqlRepresentation.relationsTable) ∈ columns
      ∨ n ∈ polymorphicProps ∨ n = "analysisAction" := by
  simp only [allowedRelationNames, List.mem_append, List.mem_filterMap, List.mem_singleton]
  constructor
  · rintro ((⟨⟨a, r⟩, hmem, hf⟩ | h) | h)
    · cases r with
      | relationsTable =>
        cases hf
        exact Or.inl hmem
      | column u nn f t => simp at hf
      | extendedPropertiesTable => simp at hf
    · exact Or.inr (Or.inl h)
    · exact Or.inr (Or.inr h)
  · rintro (h | h | h)
    · exact Or.inl (Or.inl ⟨(n, SqlRepresentation.relationsTable), h, rfl⟩)
    · exact Or.inl (Or.inr h)
    · exact Or.inr h

/-- C5 witness: the fusion examples at the concrete property "declaredName". -/
theorem fuse_nullable_or_and_fk_upgrade_witness :
    SqlRepresentation.fuse (.column false false false "TEXT") (.column false true false "TEXT")
        "declaredName"
      = .ok (.column false true false "TEXT", true)
  ∧ SqlRepresentation.fuse (.column false true false "TEXT") (.column false false false "TEXT")
        "declaredName"
      = .ok (.column false true false "TEXT", true)
  ∧ SqlRepresentation.fuse (.column false false true "TEXT") .relationsTable "declaredName"
      = .ok (.relationsTable, true)
  ∧ SqlRepresentation.fuse .relationsTable (.column false false true "TEXT") "declaredName"
      = .ok (.relationsTable, true) :=
  fuse_nullable_or_and_fk_upgrade "declaredName"

/-- C6 witness: the amended fusion-error statement at a concrete property. -/
theorem fuse_integer_text_error_names_types_witness :
    SqlRepresentation.fuse (.column false true false "INTEGER")
        (.column false false false "TEXT") "declaredName"
      = .error "Fusing two SqlRepresentations with differing type: INTEGER vs. TEXT"
  ∧ containsSub "Fusing two SqlRepresentations with differing type: INTEGER vs. TEXT" "INTEGER"
      = true
  ∧ containsSub "Fusing two SqlRepresentations with differing type: INTEGER vs. TEXT" "TEXT"
      = true :=
  fuse_integer_text_error_names_types "declaredName"

/-- C7 witness: the amended CHECK-name-set statement at a concrete mapping. -/
theorem allowedRelationNames_spec_witness :
    "analysisAction" ∈ allowedRelationNames [("ownedElement", SqlRepresentation.relationsTable)] ↔
      ("analysisAction", SqlRepresentation.relationsTable)
          ∈ [("ownedElement", SqlRepresentation.relationsTable)]
      ∨ "analysisAction" ∈ polymorphicProps ∨ "analysisAction" = "analysisAction" :=
  allowedRelationNames_spec [("ownedElement", SqlRepresentation.relationsTable)] "analysisAction"

/-
Embedding of src/util/stream_json.rs.  The byte source is modelled as a list
of characters (the importer's documents are ASCII JSON).  The single-value
decode that stream_json delegates to serde_json (an external collaborator) is
modelled by the recursive-descent functions below.
-/

def quoteChar : Char := Char.ofNat 34

def backslashChar : Char := Char.ofNat 92

def lbraceChar : Char := Char.ofNat 123

def rbraceChar : Char := Char.ofNat 125

def lbrackChar : Char := Char.ofNat 91

def rbrackChar : Char := Char.ofNat 93

/-- `u8::is_ascii_whitespace`: space, tab, newline, carriage return, form feed. -/
def isAsciiWs (c : Char) : Bool :=
  c.toNat = 32 || c.toNat = 9 || c.toNat = 10 || c.toNat = 13 || c.toNat = 12

/-- stream_json.rs `read_skipping_ws`: read bytes until a non-whitespace byte
is found and return it; end of input is an io error. -/
def readSkippingWs : List Char → Except String (Char × List Char)
  | [] => .error "failed to fill whole buffer"
  | c :: rest => if isAsciiWs c then readSkippingWs rest else .ok (c, rest)

def skipWsChars (l : List Char) : List Char := l.dropWhile isAsciiWs

def isDigitChar (c : Char) : Bool := 48 ≤ c.toNat && c.toNat ≤ 57

/-- Scan the body of a JSON string after the opening quote, consuming up to and
including the closing quote (the escapes needed by the importer's documents
are handled; \x75-style unicode escapes are not, they do not occur). -/
def parseStringBody : List Char → Except String (List Char × List Char)
  | [] => .error "EOF while parsing a string"
  | c :: rest =>
    if c = quoteChar then .ok ([], rest)
    else if c = backslashChar then
      match rest with
      | [] => .error "EOF while parsing a string"
      | e :: rest2 =>
        match
          (if e = quoteChar then .ok quoteChar
           else if e = backslashChar then .ok backslashChar
           else if e = Char.ofNat 47 then .ok (Char.ofNat 47)
           else if e = 'n' then .ok (Char.ofNat 10)
           else if e = 't' then .ok (Char.ofNat 9)
           else if e = 'r' then .ok (Char.ofNat 13)
           else .error "unsupported escape" : Except String Char)
        with
        | .error err => .error err
        | .ok ch => (parseStringBody rest2).map (fun p => (ch :: p.1, p.2))
    else (parseStringBody rest).map (fun p => (c :: p.1, p.2))

def digitsVal (ds : List Char) : Nat := ds.foldl (fun acc c => acc * 10 + (c.toNat - 48)) 0

/-- Number scanning for the single-value decode.  The numeric payload of a
float is carried opaquely (its fractional digits are consumed but dropped;
exponents do not occur in the importer's documents); no claim inspects
numeric payloads. -/
def parseNumber (first : Char) (rest : List Char) : Except String (Json × List Char) :=
  let neg := first = Char.ofNat 45
  let ds := if neg then rest.takeWhile isDigitChar else first :: rest.takeWhile isDigitChar
  let rest1 := rest.dropWhile isDigitChar
  if ds.isEmpty then .error "expected value"
  else
    let mag : Int := Int.ofNat (digitsVal ds)
    let v := if neg then -mag else mag
    match rest1 with
    | c :: r2 =>
      if c = Char.ofNat 46 then
        let frac := r2.takeWhile isDigitChar
        if frac.isEmpty then .error "expected digits after decimal point"
        else .ok (.num true v, r2.dropWhile isDigitChar)
      else .ok (.num false v, rest1)
    | [] => .ok (.num false v, [])

mutual

/-- serde_json's single-value parse: decode exactly one JSON value, consuming
only its characters and returning the remainder of the input.  The fuel
argument bounds the recursion; callers supply more fuel than any input can
consume (every recursive call strictly shrinks the input). -/
def parseValue : Nat → List Char → Except String (Json × List Char)
  | 0, _ => .error "recursion limit exceeded"
  | fuel + 1, input =>
    match skipWsChars input with
    | [] => .error "EOF while parsing a value"
    | c :: rest =>
      if c = quoteChar then (parseStringBody rest).map (fun p => (.str (String.mk p.1), p.2))
      else if c = lbraceChar then
        match skipWsChars rest with
        | [] => .error "EOF while parsing an object"
        | c2 :: rest2 =>
          if c2 = rbraceChar then .ok (.obj [], rest2)
          else
            match parseMembers fuel (c2 :: rest2) with
            | .error e => .error e
            | .ok (fields, rest3) => .ok (.obj fields, rest3)
      else if c = lbrackChar then
        match skipWsChars rest with
        | [] => .error "EOF while parsing a list"
        | c2 :: rest2 =>
          if c2 = rbrackChar then .ok (.arr [], rest2)
          else
            match parseItems fuel (c2 :: rest2) with
            | .error e => .error e
            | .ok (items, rest3) => .ok (.arr items, rest3)
      else if c = 't' then
        match rest with
        | 'r' :: 'u' :: 'e' :: r => .ok (.boolean true, r)
        | _ => .error "expected ident"
      else if c = 'f' then
        match rest with
        | 'a' :: 'l' :: 's' :: 'e' :: r => .ok (.boolean false, r)
        | _ => .error "expected ident"
      else if c = 'n' then
        match rest with
        | 'u' :: 'l' :: 'l' :: r => .ok (.null, r)
        | _ => .error "expected ident"
      else if isDigitChar c || c = Char.ofNat 45 then parseNumber c rest
      else .error "expected value"

/-- Object members, positioned at the first character of a key. -/
def parseMembers : Nat → List Char → Except String (List (String × Json) × List Char)
  | 0, _ => .error "recursion limit exceeded"
  | fuel + 1, input =>
    match skipWsChars input with
    | [] => .error "EOF while parsing an object"
    | c :: rest =>
      if c = quoteChar then
        match parseStringBody rest with
        | .error e => .error e
        | .ok (key, rest1) =>
          match skipWsChars rest1 with
          | ':' :: rest2 =>
            match parseValue fuel rest2 with
            | .error e => .error e
            | .ok (v, rest3) =>
              match skipWsChars rest3 with
              | ',' :: rest4 =>
                match parseMembers fuel rest4 with
                | .error e => .error e
                | .ok (fields, rest5) => .ok ((String.mk key, v) :: fields, rest5)
              | c3 :: rest4 =>
                if c3 = rbraceChar then .ok ([(String.mk key, v)], rest4)
                else .error "expected comma or closing brace"
              | [] => .error "EOF while parsing an object"
          | _ => .error "expected colon"
      else .error "key must be a string"

/-- Array items, positioned at the first character of an item. -/
def parseItems : Nat → List Char → Except String (List Json × List Char)
  | 0, _ => .error "recursion limit exceeded"
  | fuel + 1, input =>
    match parseValue fuel input with
    | .error e => .error e
    | .ok (v, rest) =>
      match skipWsChars rest with
      | ',' :: rest2 =>
        match parseItems fuel rest2 with
        | .error e => .error e
        | .ok (items, rest3) => .ok (v :: items, rest3)
      | c :: rest2 =>
        if c = rbrackChar then .ok ([v], rest2)
        else .error "expected comma or closing bracket"
      | [] => .error "EOF while parsing a list"

end

/-- serde's derived `Deserialize` for import.rs `Element`: the `@id` attribute
must be present as a string and becomes `id`; the remaining attributes, in
document order, become `rest`. -/
def Element.fromJson : Json → Except String Element
  | .obj fields =>
    match lookupAttr fields elementPkCol with
    | some (.str s) => .ok ⟨s, fields.filter (fun p => !(p.1 == elementPkCol))⟩
    | _ => .error "missing field `@id`"
  | _ => .error "invalid type: expected struct Element"

/-- stream_json.rs `deserialize_single`: decode one `Element` from the stream;
an empty/whitespace-only stream is the "premature EOF" error. -/
def deserializeSingle (input : List Char) : Except String (Element × List Char) :=
  match parseValue (input.length + 1) input with
  | .error e => .error e
  | .ok (j, rest) =>
    match Element.fromJson j with
    | .error e => .error e
    | .ok el => .ok (el, rest)

/-- stream_json.rs `yield_next_obj`, first call (`at_start == false`): expect
the opening bracket; peek the next non-whitespace byte — a closing bracket
ends the sequence, anything else is pushed back and decoded as the first
value. -/
def yieldNextObjFirst (input : List Char) : Except String (Option (Element × List Char)) :=
  match readSkippingWs input with
  | .error e => .error e
  | .ok (c, rest) =>
    if c = lbrackChar then
      match readSkippingWs rest with
      | .error e => .error e
      | .ok (peek, rest2) =>
        if peek = rbrackChar then .ok none
        else (deserializeSingle (peek :: rest2)).map some
    else .error "`[` not found"

/-- stream_json.rs `yield_next_obj`, subsequent calls (`at_start == true`):
a comma is followed by the next value, a closing bracket ends the sequence,
anything else is a malformed-document error. -/
def yieldNextObjNext (input : List Char) : Except String (Option (Element × List Char)) :=
  match readSkippingWs input with
  | .error e => .error e
  | .ok (c, rest) =>
    if c = ',' then (deserializeSingle rest).map some
    else if c = rbrackChar then .ok none
    else .error "`,` or `]` not found"

/-- The iteration of stream_json.rs `iter_json_array` after the first item.
Each successful step consumes at least the separator character, so the fuel
supplied by `iterJsonArray` can never run out. -/
def iterJsonArrayLoop : Nat → List Char → Except String (List Element)
  | 0, _ => .error "recursion limit exceeded"
  | fuel + 1, input =>
    match yieldNextObjNext input with
    | .error e => .error e
    | .ok none => .ok []
    | .ok (some (el, rest)) =>
      match iterJsonArrayLoop fuel rest with
      | .error e => .error e
      | .ok els => .ok (el :: els)

/-- stream_json.rs `iter_json_array`: the whole decoded element sequence of a
top-level JSON array (or the first malformed-document error). -/
def iterJsonArray (input : List Char) : Except String (List Element) :=
  match yieldNextObjFirst input with
  | .error e => .error e
  | .ok none => .ok []
  | .ok (some (el, rest)) =>
    match iterJsonArrayLoop (rest.length + 1) rest with
    | .error e => .error e
    | .ok els => .ok (el :: els)

/-- C8: decoding `[]` yields the empty sequence; decoding an array of two
elements yields exactly those two elements in order; a trailing comma before
the closing bracket is a malformed-document error. -/
theorem iterJsonArray_streaming_decode :
    iterJsonArray "[]".toList = .ok []
  ∧ iterJsonArray "[\x7b\"@id\":\"a\"\x7d,\x7b\"@id\":\"b\"\x7d]".toList
      = .ok [⟨"a", []⟩, ⟨"b", []⟩]
  ∧ (iterJsonArray "[\x7b\"@id\":\"a\"\x7d,]".toList).isOk = false :=
  ⟨rfl, rfl, rfl⟩

/-
Embedding of the fetch pipeline of src/fetch.rs (`json_deser_task`,
`http_paginator_task`, the `pages_count` counter).  A page of the remote API
is its decoded element list plus whether its response carried a next-page
link header.  In the modelled scenario the traversal ends at the first empty
page, so every page on the chain is sent over the capacity-32 channel and
counted before the decoder task can observe the empty page and hang up; the
sequential functions below compute that deterministic outcome.
-/

structure Page where
  body : List Element
  hasNextLink : Bool

/-- fetch.rs `http_paginator_task`: the pages fetched and pushed onto the
channel — the prefix of the chain up to and including the first page without
a next link. -/
def httpPaginatorSent : List Page → List Page
  | [] => []
  | p :: rest => if p.hasNextLink then p :: httpPaginatorSent rest else [p]

/-- fetch.rs `pages_count`: incremented once after every successful channel
send, including the send of the final empty page. -/
def pagesCount (pages : List Page) : Nat := (httpPaginatorSent pages).length

/-- fetch.rs `json_deser_task`: drain the channel, appending every non-empty
page body and terminating at the first empty one without appending it. -/
def jsonDeserTask : List Page → List Element
  | [] => []
  | p :: rest => if p.body.isEmpty then [] else p.body ++ jsonDeserTask rest

/-- The pipeline's observable outcome: the decoded elements handed onward to
the importer, and the final value of the pages counter. -/
def fetchPipelineRun (pages : List Page) : List Element × Nat :=
  (jsonDeserTask (httpPaginatorSent pages), pagesCount pages)

/-- C9 counterexample: with three non-empty pages followed by one empty page,
the pipeline yields exactly the three pages' elements, but the pages counter
ends at 4, not at 3 — the final empty page is sent and counted too. -/
theorem fetchPipeline_counts_final_empty_page :
    fetchPipelineRun
        [⟨[⟨"a", []⟩], true⟩, ⟨[⟨"b", []⟩], true⟩, ⟨[⟨"c", []⟩], true⟩, ⟨[], false⟩]
      = ([⟨"a", []⟩, ⟨"b", []⟩, ⟨"c", []⟩], 4)
  ∧ pagesCount
        [⟨[⟨"a", []⟩], true⟩, ⟨[⟨"b", []⟩], true⟩, ⟨[⟨"c", []⟩], true⟩, ⟨[], false⟩]
      ≠ 3 :=
  ⟨rfl, by decide⟩

/-- C9 (amended): a paginated fetch over three non-empty pages followed by one
empty page terminates with exactly the three pages' elements in arrival
order, and the pages counter ends at exactly 4 — the final empty page is
itself sent and counted as processed before the decoder terminates. -/
theorem fetchPipeline_three_pages_then_empty (p1 p2 p3 : List Element)
    (h1 : p1 ≠ []) (h2 : p2 ≠ []) (h3 : p3 ≠ []) :
    fetchPipelineRun [⟨p1, true⟩, ⟨p2, true⟩, ⟨p3, true⟩, ⟨[], false⟩]
      = (p1 ++ p2 ++ p3, 4) := by
  obtain ⟨x1, t1, rfl⟩ := List.exists_cons_of_ne_nil h1
  obtain ⟨x2, t2, rfl⟩ := List.exists_cons_of_ne_nil h2
  obtain ⟨x3, t3, rfl⟩ := List.exists_cons_of_ne_nil h3
  simp [fetchPipelineRun, httpPaginatorSent, jsonDeserTask, pagesCount]

/-- C9 witness: the amended pipeline theorem applied at a concrete traversal. -/
theorem fetchPipeline_three_pages_then_empty_witness :
    fetchPipelineRun
        [⟨[⟨"a", []⟩], true⟩, ⟨[⟨"b", []⟩, ⟨"c", []⟩], true⟩, ⟨[⟨"d", []⟩], true⟩, ⟨[], false⟩]
      = ([⟨"a", []⟩] ++ [⟨"b", []⟩, ⟨"c", []⟩] ++ [⟨"d", []⟩], 4) :=
  fetchPipeline_three_pages_then_empty [⟨"a", []⟩] [⟨"b", []⟩, ⟨"c", []⟩] [⟨"d", []⟩]
    (by simp) (by simp) (by simp)

/-
Embedding of src/import.rs `import_from_iter` and its helpers, over an
explicit store of the three tables.  The rusqlite transaction is the Except
monad: on `ok` the built store is committed, on `error` the transaction is
dropped and rolled back, leaving the pre-call store (`importRun`).

Modelling notes tied to the source:
 - the obsolete-row cleanup (import.rs lines 121-128) passes a string holding
   two DELETE statements to `prepare`; sqlite3_prepare_v2 compiles only the
   first statement and rusqlite's `Statement::execute` runs just that one, so
   only the relations DELETE takes effect — the extended_properties DELETE is
   dead text (the repository's own integration tests import successfully,
   which rules out the alternative of `prepare` rejecting the string);
 - `before_bulk_insert`/`after_bulk_insert` and the pragma updates touch no
   rows of the three tables;
 - the deferred foreign keys of the generated schema are checked at commit;
   rows not touched by the transaction cannot trip the deferred-constraint
   counter, so the commit check covers the rows inserted by this run;
 - errors of `after_bulk_insert` (ANALYZE/VACUUM) happen after the commit and
   are outside the model, as are panics (the `e_p_insert_stmts[column_idx-1]`
   indexing can only panic when an element's `rest` map carries an `@id` key,
   which serde's deserialization of `Element` makes impossible — theorems
   about arbitrary batches carry this well-formedness as a hypothesis).
-/

/-- rusqlite column types as produced by `get_table_columns` (PRAGMA
table_info; the source maps `ANY` to TEXT). -/
inductive SqlType where
  | integer
  | real
  | text
  | blob
deriving DecidableEq, Repr

/-- rusqlite values bound into the prepared statements.  The `real` payload is
the f64 carried opaquely as an `Int` (the importer stores numbers, it never
computes with them). -/
inductive SqlValue where
  | null
  | integer (i : Int)
  | real (r : Int)
  | text (s : String)
deriving DecidableEq, Repr

abbrev Row := List SqlValue

/-- A row of the relations table: `(name, origin_id, target_id)`. -/
abbrev RelRow := String × String × String

/-- A row of the extended_properties table: `(@id, column name, value)`. -/
abbrev EpRow := String × String × String

/-- The deployed schema as the importer sees it: the introspected column lists
of the elements and extended_properties tables, and the name set allowed by
the relations table's CHECK constraint (immediate, enforced per insert). -/
structure TableSchema where
  elementsCols : List (String × SqlType)
  epCols : List (String × SqlType)
  allowedRelNames : List String

/-- The three persistent tables.  `elements` is keyed by the `@id` column
(insert-or-replace), `relations` by the whole row; extended_properties is a
rowid table, so duplicate rows can accumulate. -/
structure Store where
  elements : List (String × Row)
  relations : List RelRow
  extProps : List EpRow

/-- Fallible iteration with `?`-style early return, as in the import loops. -/
def mapExcept {α β : Type} (f : α → Except String β) : List α → Except String (List β)
  | [] => .ok []
  | x :: l =>
    match f x with
    | .error e => .error e
    | .ok y =>
      match mapExcept f l with
      | .error e => .error e
      | .ok ys => .ok (y :: ys)

/-- import.rs lines 211-216: a column name that looks like a boolean flag,
i.e. starts with "is" and has an uppercase third character. -/
def isBoolFlagColumn (name : String) : Bool :=
  strStartsWith name "is" && ((name.toList.get? 2).map Char.isUpper).getD false

/-- Rust `str::parse::<bool>`: accepts exactly "true" and "false". -/
def parseRustBool (s : String) : Except String Bool :=
  if s = "true" then .ok true
  else if s = "false" then .ok false
  else .error "provided string was not `true` or `false`"

/-- import.rs pass 1, per-column coercion (lines 201-234): missing and null
become NULL; booleans become 0/1; a string under a boolean-flag column is
parsed as a boolean (aborting the import on failure via `?`); f64 numbers
become REAL and integral numbers INTEGER; other strings become TEXT; array
and object values are stored as NULL (with only a log line when the column is
not polymorphic). -/
def coerceValue (columnName : String) (v? : Option Json) : Except String SqlValue :=
  match v? with
  | none => .ok .null
  | some .null => .ok .null
  | some (.boolean b) => .ok (.integer (if b then 1 else 0))
  | some (.str s) =>
    if isBoolFlagColumn columnName then
      match parseRustBool s with
      | .error e => .error e
      | .ok b => .ok (.integer (if b then 1 else 0))
    else .ok (.text s)
  | some (.num true v) => .ok (.real v)
  | some (.num false v) => .ok (.integer v)
  | some (.arr _) => .ok .null
  | some (.obj _) => .ok .null

/-- import.rs pass 1: the elements-table row of one element — one value per
introspected column, the `@id` column taken from `Element::id`. -/
def pass1Row (cols : List (String × SqlType)) (e : Element) : Except String Row :=
  mapExcept (fun c =>
    if c.1 = elementPkCol then .ok (.text e.id)
    else coerceValue c.1 (lookupAttr e.rest c.1)) cols

/-- `INSERT OR REPLACE INTO "elements"`: drop any row with the same primary
key, add the new row. -/
def upsert (E : List (String × Row)) (x : String × Row) : List (String × Row) :=
  E.filter (fun p => !(p.1 == x.1)) ++ [x]

def upsertAll (E : List (String × Row)) (l : List (String × Row)) : List (String × Row) :=
  l.foldl upsert E

/-- `INSERT OR REPLACE INTO "relations"`: the whole row is the primary key. -/
def insertRel (R : List RelRow) (r : RelRow) : List RelRow :=
  R.filter (fun x => !(x == r)) ++ [r]

def insertRels (R : List RelRow) (l : List RelRow) : List RelRow := l.foldl insertRel R

/-- import.rs `is_relation_object`: a single-attribute object whose attribute
is a string-valued `@id`. -/
def isRelationObject (fields : List (String × Json)) : Bool :=
  (match lookupAttr fields elementPkCol with
   | some (.str _) => true
   | _ => false) && fields.length == 1

def jsonIsRelObj : Json → Bool
  | .obj f => isRelationObject f
  | _ => false

/-- `Element::deserialize(o).unwrap().id` of a relation-shaped object. -/
def relTargetId : Json → String
  | .obj fields =>
    match lookupAttr fields elementPkCol with
    | some (.str s) => s
    | _ => ""
  | _ => ""

/-- import.rs `insert_relation`: executes the prepared relations insert.  The
relations table's CHECK constraint on `name` is immediate, so a name outside
the allowed set fails the statement and, via `?`, the import. -/
def insertRelationRow (sc : TableSchema) (name origin target : String) :
    Except String RelRow :=
  if sc.allowedRelNames.contains name then .ok (name, origin, target)
  else .error "CHECK constraint failed: relations"

/-- serde_json `from_value::<Vec<String>>`. -/
def parseStringArray : Json → Except String (List String)
  | .arr items =>
    mapExcept (fun v =>
      match v with
      | Json.str s => .ok s
      | _ => .error "invalid type: expected a string") items
  | _ => .error "invalid type: expected a sequence"

/-- import.rs lines 338-361: once one array-valued attribute matches an
extended_properties column, the source loops over all extended_properties
columns and, for each whose name occurs among the element's attributes,
parses that attribute as a string list and inserts one row per string (TEXT
is the only accepted column type).  The `@id` column finds no attribute in
a deserialized element's `rest` and is skipped. -/
def epColumnInserts (e : Element) (col : String × SqlType) : Except String (List EpRow) :=
  match lookupAttr e.rest col.1 with
  | none => .ok []
  | some jv =>
    match col.2 with
    | .text =>
      match parseStringArray jv with
      | .error e2 => .error e2
      | .ok ts => .ok (ts.map (fun t => (e.id, col.1, t)))
    | _ => .error "found unexpected SQLite type in the extended_properties table"

def epInserts (sc : TableSchema) (e : Element) : Except String (List EpRow) :=
  match mapExcept (epColumnInserts e) sc.epCols with
  | .error e2 => .error e2
  | .ok rows => .ok rows.flatten

/-- import.rs pass 2, one attribute of one element (lines 286-383): nulls and
primitives are skipped; a relation-shaped object inserts one relation row; an
array of relation-shaped objects inserts one row each (an empty array matches
this arm); an array under a known extended_properties column triggers the
extended-property inserts; any other object or array is diagnostic-only. -/
def pass2Attr (sc : TableSchema) (e : Element) (name : String) (v : Json) :
    Except String (List RelRow × List EpRow) :=
  match v with
  | .null => .ok ([], [])
  | .boolean _ => .ok ([], [])
  | .num _ _ => .ok ([], [])
  | .str _ => .ok ([], [])
  | .obj fields =>
    if isRelationObject fields then
      match insertRelationRow sc name e.id (relTargetId (.obj fields)) with
      | .error e2 => .error e2
      | .ok r => .ok ([r], [])
    else .ok ([], [])
  | .arr items =>
    if items.all jsonIsRelObj then
      match mapExcept (fun it => insertRelationRow sc name e.id (relTargetId it)) items with
      | .error e2 => .error e2
      | .ok rs => .ok (rs, [])
    else if sc.epCols.any (fun c => c.1 == name) then
      match epInserts sc e with
      | .error e2 => .error e2
      | .ok eps => .ok ([], eps)
    else .ok ([], [])

/-- import.rs pass 2 over one element: all its attributes in map order. -/
def pass2Element (sc : TableSchema) (e : Element) : Except String (List RelRow × List EpRow) :=
  match mapExcept (fun a => pass2Attr sc e a.1 a.2) e.rest with
  | .error e2 => .error e2
  | .ok ds => .ok ((ds.map Prod.fst).flatten, (ds.map Prod.snd).flatten)

/-- import.rs pass 1 over the whole batch: the `(id, row)` pairs upserted into
the elements table, in order. -/
def importPass1 (sc : TableSchema) (batch : List Element) :
    Except String (List (String × Row)) :=
  mapExcept (fun e =>
    match pass1Row sc.elementsCols e with
    | .error e2 => .error e2
    | .ok r => .ok (e.id, r)) batch

/-- import.rs pass 2 over the whole batch: the relation rows and the
extended_properties rows inserted, in order. -/
def importPass2 (sc : TableSchema) (batch : List Element) :
    Except String (List RelRow × List EpRow) :=
  match mapExcept (pass2Element sc) batch with
  | .error e2 => .error e2
  | .ok ds => .ok ((ds.map Prod.fst).flatten, (ds.map Prod.snd).flatten)

/-- Does some elements-table row carry this primary key? -/
def hasId (E : List (String × Row)) (id : String) : Bool := E.any (fun p => p.1 == id)

/-- The deferred foreign-key check run by `db_ta.commit()`: every relation row
and every extended_properties row inserted by this transaction must reference
element ids present in the elements table. -/
def fkFailB (E : List (String × Row)) (newRels : List RelRow) (newEps : List EpRow) : Bool :=
  newRels.any (fun r => !(hasId E r.2.1) || !(hasId E r.2.2))
  || newEps.any (fun p => !(hasId E p.1))

/-- import.rs `import_from_iter` within its transaction: pass 1 upserts one
row per element and records the id in the damage set; then the obsolete-row
cleanup deletes the relations whose origin is in the damage set (only the
first of the two prepared DELETE statements runs — see the modelling notes
above — so extended_properties keeps its old rows); then pass 2 inserts the
relation and extended_properties rows; the commit checks the deferred foreign
keys.  Any error rolls the transaction back. -/
def importFromIter (sc : TableSchema) (σ : Store) (batch : List Element) :
    Except String Store :=
  match importPass1 sc batch with
  | .error e => .error e
  | .ok rows =>
    match importPass2 sc batch with
    | .error e => .error e
    | .ok (newRels, newEps) =>
      let damage := batch.map (fun e => e.id)
      let elements1 := upsertAll σ.elements rows
      let relations1 := σ.relations.filter (fun r => !(damage.contains r.2.1))
      if fkFailB elements1 newRels newEps then .error "FOREIGN KEY constraint failed"
      else .ok { elements := elements1,
                 relations := insertRels relations1 newRels,
                 extProps := σ.extProps ++ newEps }

/-- The store observable after the call: committed on `ok`, rolled back to the
pre-call state on `error`. -/
def importRun (sc : TableSchema) (σ : Store) (batch : List Element) : Store :=
  match importFromIter sc σ batch with
  | .ok σ2 => σ2
  | .error _ => σ

/-- Two stores holding the same set of rows in each of the three tables. -/
def SameRows (σ τ : Store) : Prop :=
  σ.elements.toFinset = τ.elements.toFinset
  ∧ σ.relations.toFinset = τ.relations.toFinset
  ∧ σ.extProps.toFinset = τ.extProps.toFinset

/-- A batch of elements as serde's `Element` deserialization produces them:
the `@id` attribute lives in `Element::id`, never in the `rest` map. -/
def WellFormedBatch (batch : List Element) : Prop :=
  ∀ e ∈ batch, lookupAttr e.rest elementPkCol = none

/-- fetch.rs `check_for_conflicting_elements`, the scan loop: `m` is the
`element_id_idx_map` from element id to the index of its first occurrence. -/
def checkLoop (elements : List Element) :
    List (Nat × Element) → List (String × Nat) → Except String Unit
  | [], _ => .ok ()
  | (idx, e) :: rest, m =>
    match (m.find? (fun p => p.1 == e.id)).map (fun p => p.2) with
    | some existingIdx =>
      match elements.get? existingIdx with
      | some existing =>
        if Element.beq existing e then checkLoop elements rest m
        else .error "Differing Elements with colliding ids where found"
      | none => .error "index out of bounds"
    | none => checkLoop elements rest ((e.id, idx) :: m)

/-- fetch.rs `check_for_conflicting_elements`. -/
def checkForConflictingElements (elements : List Element) : Except String Unit :=
  checkLoop elements elements.enum []

/-
Helper lemmas about the building blocks of the import.
-/

theorem mapExcept_ok_of_mem {α β : Type} {f : α → Except String β} :
    ∀ (l : List α) (ys : List β), mapExcept f l = .ok ys → ∀ x ∈ l, ∃ y, f x = .ok y := by
  intro l
  induction l with
  | nil => exact fun ys h x hx => absurd hx (List.not_mem_nil x)
  | cons a l ih =>
    intro ys h x hx
    cases hfa : f a with
    | error e =>
      simp only [mapExcept, hfa] at h
      cases h
    | ok y =>
      cases hml : mapExcept f l with
      | error e =>
        simp only [mapExcept, hfa, hml] at h
        cases h
      | ok ys2 =>
        rcases List.mem_cons.mp hx with rfl | hx2
        · exact ⟨y, hfa⟩
        · exact ih ys2 hml x hx2

/-- The last row value a batch assigns to a primary key (`none` when the key
does not occur). -/
def lastVal : List (String × Row) → String → Option Row
  | [], _ => none
  | x :: l, id =>
    match lastVal l id with
    | some r => some r
    | none => if x.1 = id then some x.2 else none

theorem mem_upsert {E : List (String × Row)} {x p : String × Row} :
    p ∈ upsert E x ↔ (p ∈ E ∧ ¬ p.1 = x.1) ∨ p = x := by
  simp [upsert, List.mem_filter, List.mem_append]

theorem mem_upsertAll (l : List (String × Row)) :
    ∀ (E : List (String × Row)) (p : String × Row),
      p ∈ upsertAll E l ↔
        lastVal l p.1 = some p.2 ∨ (lastVal l p.1 = none ∧ p ∈ E) := by
  induction l with
  | nil => intro E p; simp [upsertAll, lastVal]
  | cons x l ih =>
    intro E p
    have hstep : upsertAll E (x :: l) = upsertAll (upsert E x) l := rfl
    rw [hstep, ih]
    cases h : lastVal l p.1 with
    | some r => simp [lastVal, h]
    | none =>
      have hlv : lastVal (x :: l) p.1 = if x.1 = p.1 then some x.2 else none := by
        simp [lastVal, h]
      rw [hlv, mem_upsert]
      by_cases hx : x.1 = p.1
      · rw [if_pos hx]
        constructor
        · rintro (h2 | ⟨-, (⟨hpE, hne⟩ | rfl)⟩)
          · exact absurd h2 (by simp)
          · exact absurd hx.symm hne
          · exact Or.inl rfl
        · rintro (h2 | ⟨h2, -⟩)
          · exact Or.inr ⟨rfl, Or.inr (Prod.ext hx.symm (by injection h2 with hh; exact hh.symm))⟩
          · exact absurd h2 (by simp)
      · rw [if_neg hx]
        constructor
        · rintro (h2 | ⟨-, (⟨hpE, hne⟩ | rfl)⟩)
          · exact absurd h2 (by simp)
          · exact Or.inr ⟨rfl, hpE⟩
          · exact absurd rfl hx
        · rintro (h2 | ⟨-, hpE⟩)
          · exact absurd h2 (by simp)
          · exact Or.inr ⟨rfl, Or.inl ⟨hpE, fun hh => hx hh.symm⟩⟩

theorem mem_upsertAll_twice (E : List (String × Row)) (l : List (String × Row))
    (p : String × Row) : p ∈ upsertAll (upsertAll E l) l ↔ p ∈ upsertAll E l := by
  cases h : lastVal l p.1 with
  | some r => simp [mem_upsertAll, h]
  | none => simp [mem_upsertAll, h]

theorem mem_insertRel {R : List RelRow} {r x : RelRow} :
    x ∈ insertRel R r ↔ x ∈ R ∨ x = r := by
  by_cases hxr : x = r
  · simp [insertRel, hxr]
  · simp [insertRel, hxr]

theorem mem_insertRels (l : List RelRow) :
    ∀ (R : List RelRow) (x : RelRow), x ∈ insertRels R l ↔ x ∈ R ∨ x ∈ l := by
  induction l with
  | nil => intro R x; simp [insertRels]
  | cons a l ih =>
    intro R x
    have hstep : insertRels R (a :: l) = insertRels (insertRel R a) l := rfl
    rw [hstep, ih, mem_insertRel, List.mem_cons]
    tauto

theorem hasId_congr {E E' : List (String × Row)} (h : ∀ p, p ∈ E ↔ p ∈ E')
    (id : String) : hasId E id = hasId E' id := by
  rw [Bool.eq_iff_iff]
  simp only [hasId, List.any_eq_true, beq_iff_eq]
  constructor
  · rintro ⟨p, hp, hid⟩; exact ⟨p, (h p).mp hp, hid⟩
  · rintro ⟨p, hp, hid⟩; exact ⟨p, (h p).mpr hp, hid⟩

theorem fkFailB_congr {E E' : List (String × Row)} (h : ∀ p, p ∈ E ↔ p ∈ E')
    (nr : List RelRow) (neps : List EpRow) : fkFailB E nr neps = fkFailB E' nr neps := by
  have h1 : ∀ id, hasId E id = hasId E' id := hasId_congr h
  simp only [fkFailB, h1]

/-- On any error, the transaction is dropped and the pre-call store remains. -/
theorem importRun_of_error {sc : TableSchema} {σ : Store} {batch : List Element}
    (h : (importFromIter sc σ batch).isOk = false) : importRun sc σ batch = σ := by
  unfold importRun
  cases hh : importFromIter sc σ batch with
  | ok s => rw [hh] at h; simp [Except.isOk, Except.toBool] at h
  | error e => rfl

/-- C1: whenever `import_from_iter` returns an error before its commit point —
for any reason, a pass-1 coercion failure, a pass-2 constraint failure, or the
deferred foreign-key check at commit — the transaction is rolled back and the
elements, relations and extended_properties tables are exactly the pre-call
ones; no partial write is visible. -/
theorem importFromIter_error_atomic (sc : TableSchema) (σ : Store) (batch : List Element)
    (h : (importFromIter sc σ batch).isOk = false) : importRun sc σ batch = σ :=
  importRun_of_error h

/-- C1 witness: a batch whose only element carries a relation to a target that
is nowhere in the store trips the deferred foreign-key check at commit, and
the store (elements, relations and extended_properties tables) is left
exactly as before the call. -/
theorem importFromIter_error_atomic_witness :
    importRun ⟨[("@id", .text)], [("@id", .text)], ["owner"]⟩
        ⟨[("z", [.text "z"])], [("owner", "z", "z")], [("z", "c", "v")]⟩
        [⟨"a", [("owner", .obj [("@id", .str "missing")])]⟩]
      = ⟨[("z", [.text "z"])], [("owner", "z", "z")], [("z", "c", "v")]⟩ :=
  importFromIter_error_atomic _ _ _ (by rfl)

/-- C10: in pass 1, a string value under an elements-table column whose name
starts with "is" followed by an uppercase letter must parse as a boolean
("true" or "false"); any other string aborts the whole import, which is
rolled back — while array and object values under a scalar column never
abort, they are stored as NULL. -/
theorem importFromIter_boolflag_parse_aborts (sc : TableSchema) (σ : Store)
    (batch : List Element) (e : Element) (colName : String) (ty : SqlType) (s : String)
    (hcol : (colName, ty) ∈ sc.elementsCols)
    (hbc : isBoolFlagColumn colName = true)
    (hv : lookupAttr e.rest colName = some (.str s))
    (hs1 : s ≠ "true") (hs2 : s ≠ "false")
    (he : e ∈ batch) :
    (importFromIter sc σ batch).isOk = false
    ∧ importRun sc σ batch = σ
    ∧ coerceValue colName (some (.str s)) = .error "provided string was not `true` or `false`"
    ∧ coerceValue colName (some (.arr [])) = .ok .null
    ∧ coerceValue colName (some (.obj [])) = .ok .null := by
  have hne : ¬ colName = elementPkCol := by
    intro hEq
    rw [hEq] at hbc
    exact absurd hbc (by decide)
  have hcv : coerceValue colName (some (.str s)) =
      .error "provided string was not `true` or `false`" := by
    simp [coerceValue, hbc, parseRustBool, hs1, hs2]
  have hprow : ∀ r, pass1Row sc.elementsCols e ≠ .ok r := by
    intro r hr
    obtain ⟨y, hy⟩ := mapExcept_ok_of_mem _ r hr (colName, ty) hcol
    rw [if_neg hne] at hy
    rw [hv, hcv] at hy
    cases hy
  have hip1 : ∀ rs, importPass1 sc batch ≠ .ok rs := by
    intro rs hrs
    obtain ⟨y, hy⟩ := mapExcept_ok_of_mem _ rs hrs e he
    cases hpr : pass1Row sc.elementsCols e with
    | error e2 =>
      rw [hpr] at hy
      cases hy
    | ok r => exact hprow r hpr
  have hiok : (importFromIter sc σ batch).isOk = false := by
    unfold importFromIter
    cases hp1 : importPass1 sc batch with
    | error e2 => rfl
    | ok rows => exact absurd hp1 (hip1 rows)
  exact ⟨hiok, importRun_of_error hiok, hcv, rfl, rfl⟩

/-- C10 witness: an element whose "isAbstract" attribute holds the string
"maybe" aborts the import and leaves the store untouched. -/
theorem importFromIter_boolflag_parse_aborts_witness :
    (importFromIter ⟨[("@id", .text), ("isAbstract", .integer)], [("@id", .text)], []⟩
        ⟨[], [], []⟩ [⟨"a", [("isAbstract", .str "maybe")]⟩]).isOk = false
    ∧ importRun ⟨[("@id", .text), ("isAbstract", .integer)], [("@id", .text)], []⟩
        ⟨[], [], []⟩ [⟨"a", [("isAbstract", .str "maybe")]⟩] = ⟨[], [], []⟩
    ∧ coerceValue "isAbstract" (some (.str "maybe"))
        = .error "provided string was not `true` or `false`"
    ∧ coerceValue "isAbstract" (some (.arr [])) = .ok .null
    ∧ coerceValue "isAbstract" (some (.obj [])) = .ok .null :=
  importFromIter_boolflag_parse_aborts _ _ _ ⟨"a", [("isAbstract", .str "maybe")]⟩
    "isAbstract" .integer "maybe" (by simp) (by rfl) (by rfl) (by decide) (by decide)
    (by simp)

/-- C3: importing an element supersedes its previously recorded relations —
but not its extended properties.  Here the store holds a stale relation and a
stale extended_properties row for "e1"; re-importing "e1" with no attributes
deletes the relation, yet the extended_properties row survives the import,
because only the first DELETE statement of the two-statement cleanup string
is ever prepared and executed.  This contradicts the cleanup's own comment
and debug message in the source ("removing relations and extended_properties
originating from recently inserted elements"). -/
theorem importFromIter_keeps_stale_extended_props :
    importFromIter ⟨[("@id", .text)], [("@id", .text), ("aliasIds", .text)], []⟩
        ⟨[("e1", [.text "e1"])], [("rel", "e1", "e1")], [("e1", "aliasIds", "old")]⟩
        [⟨"e1", []⟩]
      = .ok ⟨[("e1", [.text "e1"])], [], [("e1", "aliasIds", "old")]⟩
    ∧ ("e1", "aliasIds", "old") ∈
        (importRun ⟨[("@id", .text)], [("@id", .text), ("aliasIds", .text)], []⟩
          ⟨[("e1", [.text "e1"])], [("rel", "e1", "e1")], [("e1", "aliasIds", "old")]⟩
          [⟨"e1", []⟩]).extProps :=
  ⟨rfl, by decide⟩

/-- C4 counterexample: a batch holding two structurally different elements
with the same id "a" is not rejected by `import_from_iter`: the import
succeeds, and the insert-or-replace upsert keeps the later element's row. -/
theorem importFromIter_conflicting_ids_last_wins :
    importFromIter ⟨[("@id", .text), ("x", .text)], [("@id", .text)], []⟩ ⟨[], [], []⟩
        [⟨"a", [("x", .str "1")]⟩, ⟨"a", [("x", .str "2")]⟩]
      = .ok ⟨[("a", [.text "a", .text "2"])], [], []⟩
    ∧ (importRun ⟨[("@id", .text), ("x", .text)], [("@id", .text)], []⟩ ⟨[], [], []⟩
        [⟨"a", [("x", .str "1")]⟩, ⟨"a", [("x", .str "2")]⟩]).elements ≠ [] :=
  ⟨rfl, by decide⟩

/-- C4 (amended): the duplicate-id conflict check lives in the fetch flow's
pre-import merge step, not in `import_from_iter`: for any two elements that
share one id but are not structurally identical,
`check_for_conflicting_elements` rejects the pair before any store mutation,
whereas the streaming import itself applies both via insert-or-replace (the
later row wins). -/
theorem checkForConflictingElements_rejects (e1 e2 : Element)
    (hid : e1.id = e2.id) (hne : Element.beq e1 e2 = false) :
    (checkForConflictingElements [e1, e2]).isOk = false := by
  have h0 : (e1.id == e2.id) = true := by rw [hid]; exact beq_self_eq_true _
  simp [checkForConflictingElements, checkLoop, h0, hne, List.enum, List.enumFrom,
    Except.isOk, Except.toBool]

/-- C4 witness: the conflict check applied to a concrete differing pair. -/
theorem checkForConflictingElements_rejects_witness :
    (checkForConflictingElements
        [⟨"a", [("x", .str "1")]⟩, ⟨"a", [("x", .str "2")]⟩]).isOk = false :=
  checkForConflictingElements_rejects ⟨"a", [("x", .str "1")]⟩ ⟨"a", [("x", .str "2")]⟩
    rfl (by rfl)

/-- A successful import, spelled out: both passes succeeded and the commit's
deferred foreign-key check passed. -/
theorem importFromIter_ok_eq (sc : TableSchema) (σ : Store) (batch : List Element)
    (rows : List (String × Row)) (nr : List RelRow) (neps : List EpRow)
    (hp1 : importPass1 sc batch = .ok rows)
    (hp2 : importPass2 sc batch = .ok (nr, neps))
    (hfk : fkFailB (upsertAll σ.elements rows) nr neps = false) :
    importFromIter sc σ batch =
      .ok { elements := upsertAll σ.elements rows,
            relations := insertRels (σ.relations.filter fun r =>
              !((batch.map fun e => e.id).contains r.2.1)) nr,
            extProps := σ.extProps ++ neps } := by
  simp [importFromIter, hp1, hp2, hfk]

/-- C2: running the import twice in succession over the same element sequence
leaves, after the second run, the same set of rows in each of the elements,
relations and extended_properties tables as after the first run. -/
theorem importFromIter_idempotent (sc : TableSchema) (σ : Store) (batch : List Element)
    (_hwf : WellFormedBatch batch) :
    SameRows (importRun sc (importRun sc σ batch) batch) (importRun sc σ batch) := by
  cases h1 : importFromIter sc σ batch with
  | error e =>
    have hr : importRun sc σ batch = σ := by unfold importRun; rw [h1]
    rw [hr, hr]
    exact ⟨rfl, rfl, rfl⟩
  | ok σ1 =>
    have hr1 : importRun sc σ batch = σ1 := by unfold importRun; rw [h1]
    rw [hr1]
    cases hp1 : importPass1 sc batch with
    | error e2 =>
      simp only [importFromIter, hp1] at h1
      cases h1
    | ok rows =>
      cases hp2 : importPass2 sc batch with
      | error e2 =>
        simp only [importFromIter, hp1, hp2] at h1
        cases h1
      | ok nrne =>
        obtain ⟨nr, neps⟩ := nrne
        simp only [importFromIter, hp1, hp2] at h1
        by_cases hfk : fkFailB (upsertAll σ.elements rows) nr neps = true
        · rw [if_pos hfk] at h1
          cases h1
        · rw [if_neg hfk] at h1
          cases h1
          have hmemE : ∀ p, p ∈ upsertAll (upsertAll σ.elements rows) rows ↔
              p ∈ upsertAll σ.elements rows :=
            fun p => mem_upsertAll_twice σ.elements rows p
          have hfk2 : fkFailB (upsertAll (upsertAll σ.elements rows) rows) nr neps = false := by
            rw [fkFailB_congr hmemE]
            exact Bool.eq_false_iff.mpr hfk
          have h2 := importFromIter_ok_eq sc
            { elements := upsertAll σ.elements rows,
              relations := insertRels (σ.relations.filter fun r =>
                !((batch.map fun e => e.id).contains r.2.1)) nr,
              extProps := σ.extProps ++ neps } batch rows nr neps hp1 hp2 hfk2
          have hrun2 : importRun sc
              { elements := upsertAll σ.elements rows,
                relations := insertRels (σ.relations.filter fun r =>
                  !((batch.map fun e => e.id).contains r.2.1)) nr,
                extProps := σ.extProps ++ neps } batch
            = { elements := upsertAll (upsertAll σ.elements rows) rows,
                relations := insertRels ((insertRels (σ.relations.filter fun r =>
                  !((batch.map fun e => e.id).contains r.2.1)) nr).filter fun r =>
                  !((batch.map fun e => e.id).contains r.2.1)) nr,
                extProps := (σ.extProps ++ neps) ++ neps } := by
            unfold importRun
            rw [h2]
          rw [hrun2]
          refine ⟨?_, ?_, ?_⟩
          · apply Finset.ext
            intro p
            simp only [List.mem_toFinset]
            exact hmemE p
          · apply Finset.ext
            intro r
            simp only [List.mem_toFinset, mem_insertRels, List.mem_filter]
            tauto
          · simp [List.toFinset_append, Finset.union_assoc, Finset.union_self]

/-- C2 witness: the idempotence theorem applied to a concrete store and a
concrete batch exercising all three tables. -/
theorem importFromIter_idempotent_witness :
    SameRows
      (importRun ⟨[("@id", .text), ("name", .text)],
                  [("@id", .text), ("aliasIds", .text)], ["owner"]⟩
        (importRun ⟨[("@id", .text), ("name", .text)],
                    [("@id", .text), ("aliasIds", .text)], ["owner"]⟩
          ⟨[("z", [.text "z", .null])], [("owner", "z", "z")], [("z", "aliasIds", "w")]⟩
          [⟨"a", [("aliasIds", .arr [.str "x"]), ("name", .str "root"),
                  ("owner", .obj [("@id", .str "z")])]⟩])
        [⟨"a", [("aliasIds", .arr [.str "x"]), ("name", .str "root"),
                ("owner", .obj [("@id", .str "z")])]⟩])
      (importRun ⟨[("@id", .text), ("name", .text)],
                  [("@id", .text), ("aliasIds", .text)], ["owner"]⟩
        ⟨[("z", [.text "z", .null])], [("owner", "z", "z")], [("z", "aliasIds", "w")]⟩
        [⟨"a", [("aliasIds", .arr [.str "x"]), ("name", .str "root"),
                ("owner", .obj [("@id", .str "z")])]⟩]) :=
  importFromIter_idempotent _ _ _
    (by
      intro e he
      rcases List.mem_singleton.mp he with rfl
      rfl)

end SysmlV2Sql
